import Mathlib

/-!
Verification of the Ctranslator request-admission layer: a token-bucket
rate limiter (`TokenBucket`) and a day-scoped usage tracker
(`UsageTracker`), shallowly embedded from the TypeScript source.
JavaScript numbers are modelled as rationals; `Date.now()` timestamps
(milliseconds) are passed explicitly; the localStorage snapshot under the
active tracking key is modelled as an explicit store value threaded
through each operation.
-/

namespace Ctranslator

/-! ## TokenBucket (rateLimiter source)

State of a `TokenBucket` instance: `tokens` and `lastRefill` are mutable,
`capacity` and `refillRate` are fixed at construction. -/

structure TokenBucket where
  tokens : ℚ
  lastRefill : ℚ
  capacity : ℚ
  refillRate : ℚ
deriving Repr, DecidableEq

/-- Source `constructor(capacity, refillRate)`: starts with a full bucket,
`lastRefill = Date.now()`. No validation is performed on the arguments. -/
def TokenBucket.init (capacity refillRate now : ℚ) : TokenBucket :=
  { tokens := capacity, lastRefill := now, capacity := capacity, refillRate := refillRate }

/-- Source `refill()`: `timePassed = (now - lastRefill) / 1000` seconds,
`tokensToAdd = timePassed * refillRate`,
`tokens = min(capacity, tokens + tokensToAdd)`, `lastRefill = now`. -/
def TokenBucket.refill (b : TokenBucket) (now : ℚ) : TokenBucket :=
  { b with
    tokens := min b.capacity (b.tokens + (now - b.lastRefill) / 1000 * b.refillRate)
    lastRefill := now }

/-- The wait in `consume`'s slow path:
`waitMs = (tokensShort / refillRate) * 1000` where
`tokensShort = tokensNeeded - tokens` after the first refill.
Note: no rounding is applied here. -/
def TokenBucket.consumeWaitMs (b : TokenBucket) (tokensNeeded now : ℚ) : ℚ :=
  let b1 := b.refill now
  (tokensNeeded - b1.tokens) / b1.refillRate * 1000

/-- Source `consume(tokensNeeded)`: refill at `now1`; if enough tokens, subtract and
return; otherwise wait (the second refill happens at `now2`, the time when the
`setTimeout` fires), refill again and subtract with a clamp at zero. -/
def TokenBucket.consume (b : TokenBucket) (tokensNeeded now1 now2 : ℚ) : TokenBucket :=
  let b1 := b.refill now1
  if b1.tokens ≥ tokensNeeded then
    { b1 with tokens := b1.tokens - tokensNeeded }
  else
    let b2 := b1.refill now2
    { b2 with tokens := max 0 (b2.tokens - tokensNeeded) }

/-- Source `canConsume(tokensNeeded)`: refill, then report `tokens >= tokensNeeded`. -/
def TokenBucket.canConsume (b : TokenBucket) (tokensNeeded now : ℚ) : Bool × TokenBucket :=
  let b1 := b.refill now
  (decide (b1.tokens ≥ tokensNeeded), b1)

/-- Source `getAvailableTokens()`: refill, then `Math.floor(tokens)`. -/
def TokenBucket.getAvailableTokens (b : TokenBucket) (now : ℚ) : ℤ × TokenBucket :=
  let b1 := b.refill now
  (⌊b1.tokens⌋, b1)

/-- Source `getWaitTime(tokensNeeded)`: refill; `0` if enough tokens, otherwise
`Math.ceil((tokensShort / refillRate) * 1000)`. -/
def TokenBucket.getWaitTime (b : TokenBucket) (tokensNeeded now : ℚ) : ℤ × TokenBucket :=
  let b1 := b.refill now
  if b1.tokens ≥ tokensNeeded then (0, b1)
  else (⌈(tokensNeeded - b1.tokens) / b1.refillRate * 1000⌉, b1)

/-- Source `reset()`: back to a full bucket. -/
def TokenBucket.reset (b : TokenBucket) (now : ℚ) : TokenBucket :=
  { b with tokens := b.capacity, lastRefill := now }

/-! ### Call traces over a bucket

One public call, with the `Date.now()` values it observes. `consume` observes
two timestamps: on entry and (on the slow path) when the timeout fires. -/

inductive BucketOp where
  | consume (tokensNeeded t1 t2 : ℚ)
  | canConsume (tokensNeeded t : ℚ)
  | getWaitTime (tokensNeeded t : ℚ)
  | getAvailableTokens (t : ℚ)

def BucketOp.exec (b : TokenBucket) : BucketOp → TokenBucket
  | .consume n t1 t2 => b.consume n t1 t2
  | .canConsume n t => (b.canConsume n t).2
  | .getWaitTime n t => (b.getWaitTime n t).2
  | .getAvailableTokens t => (b.getAvailableTokens t).2

/-- Admissibility of a call: token arguments are non-negative and the clock
is monotone (each observed time is at least the bucket's `lastRefill`). -/
def BucketOp.valid (b : TokenBucket) : BucketOp → Prop
  | .consume n t1 t2 => 0 ≤ n ∧ b.lastRefill ≤ t1 ∧ t1 ≤ t2
  | .canConsume n t => 0 ≤ n ∧ b.lastRefill ≤ t
  | .getWaitTime n t => 0 ≤ n ∧ b.lastRefill ≤ t
  | .getAvailableTokens t => b.lastRefill ≤ t

def execTrace (b : TokenBucket) : List BucketOp → TokenBucket
  | [] => b
  | op :: ops => execTrace (op.exec b) ops

def traceValid (b : TokenBucket) : List BucketOp → Prop
  | [] => True
  | op :: ops => op.valid b ∧ traceValid (op.exec b) ops

/-- The bucket invariant: `0 ≤ tokens ≤ capacity`. -/
def BucketInv (b : TokenBucket) : Prop := 0 ≤ b.tokens ∧ b.tokens ≤ b.capacity

/-- Well-formed construction parameters, fixed for the bucket's lifetime. -/
def BucketWF (b : TokenBucket) : Prop := 0 < b.capacity ∧ 0 < b.refillRate

theorem TokenBucket.refill_capacity (b : TokenBucket) (now : ℚ) :
    (b.refill now).capacity = b.capacity := rfl

theorem TokenBucket.refill_refillRate (b : TokenBucket) (now : ℚ) :
    (b.refill now).refillRate = b.refillRate := rfl

theorem TokenBucket.refill_lastRefill (b : TokenBucket) (now : ℚ) :
    (b.refill now).lastRefill = now := rfl

theorem BucketOp.exec_capacity (b : TokenBucket) (op : BucketOp) :
    (op.exec b).capacity = b.capacity := by
  cases op <;> simp [BucketOp.exec, TokenBucket.consume, TokenBucket.canConsume,
    TokenBucket.getWaitTime, TokenBucket.getAvailableTokens, TokenBucket.refill] <;> split <;> rfl

theorem BucketOp.exec_refillRate (b : TokenBucket) (op : BucketOp) :
    (op.exec b).refillRate = b.refillRate := by
  cases op <;> simp [BucketOp.exec, TokenBucket.consume, TokenBucket.canConsume,
    TokenBucket.getWaitTime, TokenBucket.getAvailableTokens, TokenBucket.refill] <;> split <;> rfl

theorem execTrace_capacity (b : TokenBucket) (ops : List BucketOp) :
    (execTrace b ops).capacity = b.capacity := by
  induction ops generalizing b with
  | nil => rfl
  | cons op ops ih => rw [execTrace, ih, BucketOp.exec_capacity]

/-- The `refill` step preserves the invariant when the clock has not gone backwards. -/
theorem TokenBucket.refill_inv (b : TokenBucket) (now : ℚ)
    (hwf : BucketWF b) (hinv : BucketInv b) (ht : b.lastRefill ≤ now) :
    BucketInv (b.refill now) := by
  obtain ⟨hcap, hrate⟩ := hwf
  obtain ⟨h0, _⟩ := hinv
  have hadd : 0 ≤ (now - b.lastRefill) / 1000 * b.refillRate :=
    mul_nonneg (div_nonneg (by linarith) (by norm_num)) hrate.le
  constructor
  · show 0 ≤ min b.capacity (b.tokens + (now - b.lastRefill) / 1000 * b.refillRate)
    exact le_min hcap.le (by linarith)
  · show min b.capacity (b.tokens + (now - b.lastRefill) / 1000 * b.refillRate) ≤ b.capacity
    exact min_le_left _ _

theorem BucketOp.exec_inv (b : TokenBucket) (op : BucketOp)
    (hwf : BucketWF b) (hinv : BucketInv b) (hop : op.valid b) :
    BucketInv (op.exec b) := by
  have hwf1 : ∀ t, BucketWF (b.refill t) := fun t => hwf
  cases op with
  | consume n t1 t2 =>
    obtain ⟨hn, ht1, ht12⟩ := hop
    have h1 : BucketInv (b.refill t1) := b.refill_inv t1 hwf hinv ht1
    simp only [BucketOp.exec, TokenBucket.consume]
    split
    · rename_i hge
      constructor
      · show 0 ≤ (b.refill t1).tokens - n
        linarith [hge]
      · show (b.refill t1).tokens - n ≤ (b.refill t1).capacity
        linarith [h1.2]
    · have ht2 : (b.refill t1).lastRefill ≤ t2 := by
        rw [TokenBucket.refill_lastRefill]; linarith
      have h2 : BucketInv ((b.refill t1).refill t2) :=
        (b.refill t1).refill_inv t2 hwf h1 ht2
      refine ⟨le_max_left _ _, ?_⟩
      have hcap : (0:ℚ) < ((b.refill t1).refill t2).capacity := hwf.1
      exact max_le hcap.le (by linarith [h2.2])
  | canConsume n t =>
    exact b.refill_inv t hwf hinv hop.2
  | getWaitTime n t =>
    have h1 : BucketInv (b.refill t) := b.refill_inv t hwf hinv hop.2
    simp only [BucketOp.exec, TokenBucket.getWaitTime]
    split <;> exact h1
  | getAvailableTokens t =>
    exact b.refill_inv t hwf hinv hop

theorem BucketOp.exec_wf (b : TokenBucket) (op : BucketOp) (hwf : BucketWF b) :
    BucketWF (op.exec b) := by
  constructor
  · rw [BucketOp.exec_capacity]; exact hwf.1
  · rw [BucketOp.exec_refillRate]; exact hwf.2

theorem execTrace_inv (b : TokenBucket) (ops : List BucketOp)
    (hwf : BucketWF b) (hinv : BucketInv b) (hops : traceValid b ops) :
    BucketInv (execTrace b ops) := by
  induction ops generalizing b with
  | nil => exact hinv
  | cons op ops ih =>
    exact ih _ (op.exec_wf b hwf) (op.exec_inv b hwf hinv hops.1) hops.2

/-- C1: for every `TokenBucket` constructed with `capacity > 0` and
`refillRate > 0`, and every admissible finite sequence of
`consume`/`canConsume`/`getWaitTime`/`getAvailableTokens` calls (non-negative
token arguments, monotone clock), the internal token count satisfies
`0 ≤ tokens ≤ capacity` when each call returns. -/
theorem C1_bucket_capacity_invariant (capacity refillRate t0 : ℚ)
    (hcap : 0 < capacity) (hrate : 0 < refillRate)
    (ops : List BucketOp)
    (hops : traceValid (TokenBucket.init capacity refillRate t0) ops) :
    0 ≤ (execTrace (TokenBucket.init capacity refillRate t0) ops).tokens ∧
      (execTrace (TokenBucket.init capacity refillRate t0) ops).tokens ≤ capacity := by
  have h := execTrace_inv (TokenBucket.init capacity refillRate t0) ops
    ⟨hcap, hrate⟩ ⟨hcap.le, le_refl _⟩ hops
  refine ⟨h.1, ?_⟩
  have := h.2
  rwa [execTrace_capacity] at this

/-- Witness for C1 at a concrete trace: bucket `(10, 2)` built at time `0`,
then `consume(1)` at time `0` and `canConsume(5)` at time `100`. -/
theorem C1_witness :
    traceValid (TokenBucket.init 10 2 0)
      [BucketOp.consume 1 0 0, BucketOp.canConsume 5 100] ∧
    (0 ≤ (execTrace (TokenBucket.init 10 2 0)
        [BucketOp.consume 1 0 0, BucketOp.canConsume 5 100]).tokens ∧
      (execTrace (TokenBucket.init 10 2 0)
        [BucketOp.consume 1 0 0, BucketOp.canConsume 5 100]).tokens ≤ 10) := by
  have hv : traceValid (TokenBucket.init 10 2 0)
      [BucketOp.consume 1 0 0, BucketOp.canConsume 5 100] := by
    refine ⟨⟨by norm_num, le_refl _, le_refl _⟩, ⟨by norm_num, ?_⟩, trivial⟩
    show ((TokenBucket.init 10 2 0).consume 1 0 0).lastRefill ≤ 100
    norm_num [TokenBucket.consume, TokenBucket.refill, TokenBucket.init]
  exact ⟨hv, C1_bucket_capacity_invariant 10 2 0 (by norm_num) (by norm_num) _ hv⟩

/-- C2 counterexample: the claim says `consume`'s slow path suspends for
exactly `getWaitTime(n)`; but the wait in `consume` is not rounded up, while
`getWaitTime` applies `Math.ceil`. With an empty bucket (`tokens = 0`,
`capacity = 10`, `refillRate = 3`, clock at `0`), `consume(1)` waits
`1000/3 ms` while `getWaitTime(1) = 334 ms`. -/
theorem C2_counterexample :
    TokenBucket.consumeWaitMs ⟨0, 0, 10, 3⟩ 1 0 ≠
      ((TokenBucket.getWaitTime ⟨0, 0, 10, 3⟩ 1 0).1 : ℚ) := by
  have h1 : TokenBucket.consumeWaitMs ⟨0, 0, 10, 3⟩ 1 0 = 1000 / 3 := by
    norm_num [TokenBucket.consumeWaitMs, TokenBucket.refill]
  have h2 : (TokenBucket.getWaitTime ⟨0, 0, 10, 3⟩ 1 0).1 = 334 := by
    norm_num [TokenBucket.getWaitTime, TokenBucket.refill]
    rw [Int.ceil_eq_iff]
    constructor <;> norm_num
  rw [h1, h2]
  norm_num

/-- C2 (amended): `getWaitTime(n)` refills and returns `0` when
`tokens ≥ n`, and otherwise `ceil(((n - tokens) / refillRate) * 1000)` ms,
which is the ceiling of the un-rounded wait used by `consume`; when
`consume(n)` finds `tokens < n` after refilling it suspends for the
un-rounded wait `((n - tokens) / refillRate) * 1000` ms (not `getWaitTime`'s
ceiling), then refills again and subtracts `n`, clamping to zero — after that
exact wait the clamp yields exactly `0` tokens. -/
theorem C2_wait_time (b : TokenBucket) (n t t2 : ℚ)
    (hrate : 0 < b.refillRate) (hn : 0 ≤ n) (hcap : n ≤ b.capacity) :
    (n ≤ (b.refill t).tokens →
      (b.getWaitTime n t).1 = 0 ∧
      (b.consume n t t2).tokens = (b.refill t).tokens - n) ∧
    ((b.refill t).tokens < n →
      (b.getWaitTime n t).1 = ⌈b.consumeWaitMs n t⌉ ∧
      (b.consume n t (t + b.consumeWaitMs n t)).tokens = 0) := by
  constructor
  · intro hge
    constructor
    · show (if (b.refill t).tokens ≥ n then ((0:ℤ), b.refill t)
        else (⌈(n - (b.refill t).tokens) / (b.refill t).refillRate * 1000⌉, b.refill t)).1 = 0
      rw [if_pos hge]
    · show (if (b.refill t).tokens ≥ n then _ else _ : TokenBucket).tokens = _
      rw [if_pos hge]
  · intro hlt
    have hnge : ¬ ((b.refill t).tokens ≥ n) := not_le.mpr hlt
    constructor
    · show (if (b.refill t).tokens ≥ n then ((0:ℤ), b.refill t)
        else (⌈(n - (b.refill t).tokens) / (b.refill t).refillRate * 1000⌉, b.refill t)).1 = _
      rw [if_neg hnge]
      rfl
    · show (if (b.refill t).tokens ≥ n then _ else _ : TokenBucket).tokens = 0
      rw [if_neg hnge]
      show max 0 (((b.refill t).refill (t + b.consumeWaitMs n t)).tokens - n) = 0
      have hrr : (b.refill t).refillRate = b.refillRate := rfl
      have hcc : (b.refill t).capacity = b.capacity := rfl
      have hlr : (b.refill t).lastRefill = t := rfl
      have htok : ((b.refill t).refill (t + b.consumeWaitMs n t)).tokens = n := by
        show min (b.refill t).capacity ((b.refill t).tokens +
          (t + b.consumeWaitMs n t - (b.refill t).lastRefill) / 1000 * (b.refill t).refillRate) = n
        rw [hcc, hlr, hrr]
        have hw : t + b.consumeWaitMs n t - t = (n - (b.refill t).tokens) / b.refillRate * 1000 := by
          show t + (n - (b.refill t).tokens) / (b.refill t).refillRate * 1000 - t = _
          rw [hrr]; ring
        rw [hw]
        have : (n - (b.refill t).tokens) / b.refillRate * 1000 / 1000 * b.refillRate =
            n - (b.refill t).tokens := by
          field_simp
          ring
        rw [this]
        rw [show (b.refill t).tokens + (n - (b.refill t).tokens) = n by ring]
        exact min_eq_right hcap
      rw [htok]
      simp

/-- Witness for C2 (amended) at the concrete bucket of the counterexample:
`tokens = 0`, `capacity = 10`, `refillRate = 3`, request `n = 1` at time `0`. -/
theorem C2_witness :
    ((0:ℚ) < 3 ∧ (0:ℚ) ≤ 1 ∧ (1:ℚ) ≤ 10) ∧
    ((TokenBucket.mk 0 0 10 3).refill 0).tokens < 1 ∧
    ((TokenBucket.mk 0 0 10 3).getWaitTime 1 0).1 =
      ⌈(TokenBucket.mk 0 0 10 3).consumeWaitMs 1 0⌉ ∧
    ((TokenBucket.mk 0 0 10 3).consume 1 0
      (0 + (TokenBucket.mk 0 0 10 3).consumeWaitMs 1 0)).tokens = 0 := by
  have hlt : ((TokenBucket.mk 0 0 10 3).refill 0).tokens < 1 := by
    norm_num [TokenBucket.refill]
  have h := (C2_wait_time ⟨0, 0, 10, 3⟩ 1 0 0 (by norm_num) (by norm_num)
    (by norm_num)).2 hlt
  exact ⟨⟨by norm_num, by norm_num, by norm_num⟩, hlt, h.1, h.2⟩

/-! ## UsageTracker (usage tracker source, `UsageTracker` class)

The persisted snapshot under the active tracking key is modelled as
`Store := Option Stored`: `none` is an absent key, `Stored.corrupt` stands
for bytes that `JSON.parse` rejects (or an unexpected shape), and
`Stored.good d` is a well-formed snapshot. The ambient `Date` facts an
operation observes — today's UTC calendar date string and `Date.now()` —
are an explicit `Env`. Read operations return the store unchanged because
the source performs no `localStorage.setItem` on those paths; a failing
`localStorage.setItem` is modelled by the `writeFails` flag of
`saveUsageData` (the source catches and logs the failure). -/

def DAILY_LIMIT_CHARS : ℚ := 45000

def WARNING_THRESHOLD : ℚ := 8 / 10

def CRITICAL_THRESHOLD : ℚ := 95 / 100

structure UsageData where
  date : String
  charsUsed : ℚ
  requestCount : ℚ
  lastUpdated : ℚ
  userIdentifier : Option String
deriving Repr, DecidableEq

inductive Stored where
  | good : UsageData → Stored
  | corrupt : Stored
deriving Repr, DecidableEq

abbrev Store := Option Stored

/-- The `Date` facts an operation observes: `getCurrentDate()` and
`Date.now()`. -/
structure Env where
  today : String
  now : ℚ
deriving Repr, DecidableEq

/-- Source `createFreshUsageData()`. -/
def createFreshUsageData (env : Env) (uid : Option String) : UsageData :=
  { date := env.today, charsUsed := 0, requestCount := 0,
    lastUpdated := env.now, userIdentifier := uid }

/-- Source `loadUsageData()`: absent key or parse failure (caught) yields fresh
data; a snapshot dated other than today is replaced by fresh data; an
up-to-date snapshot is returned as stored. Never writes. -/
def loadUsageData (env : Env) (uid : Option String) (store : Store) : UsageData :=
  match store with
  | some (.good d) => if d.date ≠ env.today then createFreshUsageData env uid else d
  | some .corrupt => createFreshUsageData env uid
  | none => createFreshUsageData env uid

/-- Source `saveUsageData(data)`: stamps `lastUpdated` and `userIdentifier`, then
`localStorage.setItem`; a throwing write is caught, leaving the store
unchanged. -/
def saveUsageData (env : Env) (uid : Option String) (writeFails : Bool)
    (store : Store) (d : UsageData) : Store :=
  if writeFails then store
  else some (.good { d with lastUpdated := env.now, userIdentifier := uid })

/-- Source `recordUsage(charCount)`: load, add `charCount` to `charsUsed`, bump
`requestCount`, save. No admission check. -/
def recordUsage (env : Env) (uid : Option String) (writeFails : Bool)
    (store : Store) (charCount : ℚ) : Store :=
  let d := loadUsageData env uid store
  saveUsageData env uid writeFails store
    { d with charsUsed := d.charsUsed + charCount, requestCount := d.requestCount + 1 }

/-- Source `canUseChars(charCount)`: `charsUsed + charCount <= DAILY_LIMIT_CHARS`.
Read-only. -/
def canUseChars (env : Env) (uid : Option String) (store : Store)
    (charCount : ℚ) : Bool × Store :=
  let d := loadUsageData env uid store
  (decide (d.charsUsed + charCount ≤ DAILY_LIMIT_CHARS), store)

structure UsageStats where
  charsUsed : ℚ
  charsRemaining : ℚ
  percentUsed : ℚ
  requestCount : ℚ
  dailyLimit : ℚ
  isNearLimit : Bool
  isCritical : Bool
  date : String
deriving Repr, DecidableEq

/-- Source `getUsageStats()`: `percentUsed = (charsUsed / DAILY_LIMIT_CHARS) * 100`;
the returned field is capped with `Math.min(100, percentUsed)` while the
threshold flags compare the uncapped value;
`charsRemaining = Math.max(0, DAILY_LIMIT_CHARS - charsUsed)`. Read-only. -/
def getUsageStats (env : Env) (uid : Option String) (store : Store) :
    UsageStats × Store :=
  let d := loadUsageData env uid store
  let percentUsed := d.charsUsed / DAILY_LIMIT_CHARS * 100
  ({ charsUsed := d.charsUsed
     charsRemaining := max 0 (DAILY_LIMIT_CHARS - d.charsUsed)
     percentUsed := min 100 percentUsed
     requestCount := d.requestCount
     dailyLimit := DAILY_LIMIT_CHARS
     isNearLimit := decide (percentUsed ≥ WARNING_THRESHOLD * 100)
     isCritical := decide (percentUsed ≥ CRITICAL_THRESHOLD * 100)
     date := d.date }, store)

/-- The character set removed by JavaScript `String.prototype.trim`:
WhiteSpace and LineTerminator code points. -/
def isJsWhitespace (c : Char) : Bool :=
  c == '\u0009' || c == '\u000A' || c == '\u000B' || c == '\u000C' ||
  c == '\u000D' || c == '\u0020' || c == '\u00A0' || c == '\u1680' ||
  (c.val ≥ 0x2000 && c.val ≤ 0x200A) ||
  c == '\u2028' || c == '\u2029' || c == '\u202F' || c == '\u205F' ||
  c == '\u3000' || c == '\uFEFF' 

/-- JavaScript `text.trim()` over the character sequence of a string. -/
def jsTrim (s : List Char) : List Char :=
  ((s.dropWhile isJsWhitespace).reverse.dropWhile isJsWhitespace).reverse

/-- Source `calculateCharCount(texts)`: sum of trimmed lengths, by `reduce` with
initial accumulator `0`. -/
def calculateCharCount (texts : List (List Char)) : ℕ :=
  texts.foldl (fun total text => total + (jsTrim text).length) 0

inductive Tone where
  | info
  | warning
  | critical
deriving Repr, DecidableEq

/-- The result record of `validateTranslationBatch` (the interpolated
message strings are not modelled; `tone` identifies the branch taken). -/
structure BatchValidation where
  canProceed : Bool
  totalChars : ℕ
  tone : Tone
deriving Repr, DecidableEq

/-- Source `validateTranslationBatch(texts)`: total the batch; reject when
`canUseChars(total)` fails; otherwise classify the projected percentage
`(charsUsed + total) / DAILY_LIMIT_CHARS * 100` against the critical and
warning thresholds. Read-only. -/
def validateTranslationBatch (env : Env) (uid : Option String) (store : Store)
    (texts : List (List Char)) : BatchValidation × Store :=
  let totalChars := calculateCharCount texts
  let stats := (getUsageStats env uid store).1
  if ¬ (canUseChars env uid store (totalChars : ℚ)).1 then
    ({ canProceed := false, totalChars := totalChars, tone := .critical }, store)
  else
    let newTotal := stats.charsUsed + (totalChars : ℚ)
    let newPercent := newTotal / DAILY_LIMIT_CHARS * 100
    if newPercent ≥ CRITICAL_THRESHOLD * 100 then
      ({ canProceed := true, totalChars := totalChars, tone := .critical }, store)
    else if newPercent ≥ WARNING_THRESHOLD * 100 then
      ({ canProceed := true, totalChars := totalChars, tone := .warning }, store)
    else
      ({ canProceed := true, totalChars := totalChars, tone := .info }, store)

/-- A fixed environment used by the concrete counterexamples and witnesses. -/
def env0 : Env := { today := "2026-10-11", now := 0 }

/-- Whatever the store holds, the snapshot `loadUsageData` returns is dated
today: stale, corrupt and absent snapshots are all replaced by fresh data. -/
theorem loadUsageData_date (env : Env) (uid : Option String) (store : Store) :
    (loadUsageData env uid store).date = env.today := by
  match store with
  | none => rfl
  | some .corrupt => rfl
  | some (.good d) =>
    show (if d.date ≠ env.today then createFreshUsageData env uid else d).date = env.today
    split
    · rfl
    · rename_i h
      simpa using h

/-- Unfolding of a successful `recordUsage`: the persisted snapshot is a
new object dated today, with the loaded counters incremented and the
metadata restamped. -/
theorem recordUsage_eq (env : Env) (uid : Option String) (store : Store) (c : ℚ) :
    recordUsage env uid false store c =
      some (.good { date := env.today,
                    charsUsed := (loadUsageData env uid store).charsUsed + c,
                    requestCount := (loadUsageData env uid store).requestCount + 1,
                    lastUpdated := env.now, userIdentifier := uid }) := by
  show some (Stored.good (UsageData.mk (loadUsageData env uid store).date
      ((loadUsageData env uid store).charsUsed + c)
      ((loadUsageData env uid store).requestCount + 1) env.now uid)) = _
  rw [loadUsageData_date]

/-- None of the batch-validation branches writes: the returned store is the
input store. -/
theorem validateTranslationBatch_store (env : Env) (uid : Option String)
    (store : Store) (texts : List (List Char)) :
    (validateTranslationBatch env uid store texts).2 = store := by
  simp only [validateTranslationBatch]
  split
  · rfl
  · split
    · rfl
    · split <;> rfl

/-- The decision part of `validateTranslationBatch` depends on the store
only through the snapshot `loadUsageData` returns. -/
theorem validateTranslationBatch_fst_congr (env : Env) (uid : Option String)
    (s1 s2 : Store) (texts : List (List Char))
    (h : loadUsageData env uid s1 = loadUsageData env uid s2) :
    (validateTranslationBatch env uid s1 texts).1 =
      (validateTranslationBatch env uid s2 texts).1 := by
  simp only [validateTranslationBatch, getUsageStats, canUseChars, h]
  by_cases h1 : ¬ (decide ((loadUsageData env uid s2).charsUsed +
      (calculateCharCount texts : ℚ) ≤ DAILY_LIMIT_CHARS) = true)
  · rw [if_pos h1, if_pos h1]
  · rw [if_neg h1, if_neg h1]
    by_cases h2 : ((loadUsageData env uid s2).charsUsed +
        (calculateCharCount texts : ℚ)) / DAILY_LIMIT_CHARS * 100 ≥ CRITICAL_THRESHOLD * 100
    · rw [if_pos h2, if_pos h2]
    · rw [if_neg h2, if_neg h2]
      by_cases h3 : ((loadUsageData env uid s2).charsUsed +
          (calculateCharCount texts : ℚ)) / DAILY_LIMIT_CHARS * 100 ≥ WARNING_THRESHOLD * 100
      · rw [if_pos h3, if_pos h3]
      · rw [if_neg h3, if_neg h3]

/-- C3: a persisted snapshot dated other than today is read as zero by every
read operation (`canUseChars`, `getUsageStats`, `validateTranslationBatch`)
and by `recordUsage`'s initial load, however large its `charsUsed`; the
reads leave the stored snapshot untouched, and the fresh zero snapshot is
only persisted by a write (`recordUsage` writes a new object for today). -/
theorem C3_day_rollover (env : Env) (uid : Option String) (d : UsageData)
    (c : ℚ) (texts : List (List Char)) (hd : d.date ≠ env.today) :
    loadUsageData env uid (some (.good d)) = createFreshUsageData env uid ∧
    (canUseChars env uid (some (.good d)) c).1 = decide (0 + c ≤ DAILY_LIMIT_CHARS) ∧
    (canUseChars env uid (some (.good d)) c).2 = some (.good d) ∧
    (getUsageStats env uid (some (.good d))).1.charsUsed = 0 ∧
    (getUsageStats env uid (some (.good d))).1.requestCount = 0 ∧
    (getUsageStats env uid (some (.good d))).2 = some (.good d) ∧
    (validateTranslationBatch env uid (some (.good d)) texts).1 =
      (validateTranslationBatch env uid none texts).1 ∧
    (validateTranslationBatch env uid (some (.good d)) texts).2 = some (.good d) ∧
    recordUsage env uid false (some (.good d)) c =
      some (.good { date := env.today, charsUsed := 0 + c, requestCount := 0 + 1,
                    lastUpdated := env.now, userIdentifier := uid }) := by
  have hload : loadUsageData env uid (some (.good d)) = createFreshUsageData env uid := by
    show (if d.date ≠ env.today then createFreshUsageData env uid else d) =
      createFreshUsageData env uid
    rw [if_pos hd]
  have hl2 : loadUsageData env uid (some (.good d)) = loadUsageData env uid none := hload
  refine ⟨hload, ?_, rfl, ?_, ?_, rfl, ?_, validateTranslationBatch_store env uid _ texts, ?_⟩
  · simp only [canUseChars, hload, createFreshUsageData]
  · simp only [getUsageStats, hload, createFreshUsageData]
  · simp only [getUsageStats, hload, createFreshUsageData]
  · exact validateTranslationBatch_fst_congr env uid _ none texts hl2
  · rw [recordUsage_eq, hload]
    simp only [createFreshUsageData]

/-- Witness for C3: yesterday's snapshot holds `charsUsed = 99999`, far above
the limit; today every read sees zero. -/
theorem C3_witness :
    (("2026-10-10" : String) ≠ env0.today) ∧
    (loadUsageData env0 none (some (.good ⟨"2026-10-10", 99999, 7, 0, none⟩)) =
      createFreshUsageData env0 none ∧
    (canUseChars env0 none (some (.good ⟨"2026-10-10", 99999, 7, 0, none⟩)) 5).1 =
      decide ((0:ℚ) + 5 ≤ DAILY_LIMIT_CHARS) ∧
    (canUseChars env0 none (some (.good ⟨"2026-10-10", 99999, 7, 0, none⟩)) 5).2 =
      some (.good ⟨"2026-10-10", 99999, 7, 0, none⟩) ∧
    (getUsageStats env0 none (some (.good ⟨"2026-10-10", 99999, 7, 0, none⟩))).1.charsUsed = 0 ∧
    (getUsageStats env0 none (some (.good ⟨"2026-10-10", 99999, 7, 0, none⟩))).1.requestCount = 0 ∧
    (getUsageStats env0 none (some (.good ⟨"2026-10-10", 99999, 7, 0, none⟩))).2 =
      some (.good ⟨"2026-10-10", 99999, 7, 0, none⟩) ∧
    (validateTranslationBatch env0 none (some (.good ⟨"2026-10-10", 99999, 7, 0, none⟩)) []).1 =
      (validateTranslationBatch env0 none none []).1 ∧
    (validateTranslationBatch env0 none (some (.good ⟨"2026-10-10", 99999, 7, 0, none⟩)) []).2 =
      some (.good ⟨"2026-10-10", 99999, 7, 0, none⟩) ∧
    recordUsage env0 none false (some (.good ⟨"2026-10-10", 99999, 7, 0, none⟩)) 5 =
      some (.good { date := env0.today, charsUsed := 0 + 5, requestCount := 0 + 1,
                    lastUpdated := env0.now, userIdentifier := none })) :=
  ⟨by decide, C3_day_rollover env0 none ⟨"2026-10-10", 99999, 7, 0, none⟩ 5 [] (by decide)⟩

/-- C4: a batch whose trimmed total pushes today's usage over the 45000
daily limit is rejected by `validateTranslationBatch`, and the persisted
usage state is left unchanged. -/
theorem C4_reject_no_mutation (env : Env) (uid : Option String) (store : Store)
    (texts : List (List Char))
    (h : DAILY_LIMIT_CHARS <
      (loadUsageData env uid store).charsUsed + (calculateCharCount texts : ℚ)) :
    (validateTranslationBatch env uid store texts).1.canProceed = false ∧
    (validateTranslationBatch env uid store texts).2 = store := by
  have hcond : ¬ ((canUseChars env uid store ((calculateCharCount texts : ℕ) : ℚ)).1 = true) := by
    simp only [canUseChars, decide_eq_true_eq]
    exact not_le.mpr h
  constructor
  · show (if ¬ ((canUseChars env uid store ((calculateCharCount texts : ℕ) : ℚ)).1 = true)
        then _ else _ : BatchValidation × Store).1.canProceed = false
    rw [if_pos hcond]
  · show (if ¬ ((canUseChars env uid store ((calculateCharCount texts : ℕ) : ℚ)).1 = true)
        then _ else _ : BatchValidation × Store).2 = store
    rw [if_pos hcond]

theorem calculateCharCount_singleton (l : List Char) :
    calculateCharCount [l] = 0 + (jsTrim l).length := rfl

theorem jsTrim_replicate_a (n : ℕ) :
    jsTrim (List.replicate n 'a') = List.replicate n 'a' := by
  have hdrop : ∀ m : ℕ,
      (List.replicate m 'a').dropWhile isJsWhitespace = List.replicate m 'a' := by
    intro m
    cases m with
    | zero => rfl
    | succ k =>
      rw [List.replicate_succ, List.dropWhile_cons, if_neg (by decide)]
  unfold jsTrim
  rw [hdrop, List.reverse_replicate, hdrop, List.reverse_replicate]

/-- Witness for C4, the spec's own instance: a single 50000-character text
against a fresh ledger (`0` used) is rejected and the store stays empty. -/
theorem C4_witness :
    (DAILY_LIMIT_CHARS <
      (loadUsageData env0 none none).charsUsed +
        (calculateCharCount [List.replicate 50000 'a'] : ℚ)) ∧
    (validateTranslationBatch env0 none none [List.replicate 50000 'a']).1.canProceed = false ∧
    (validateTranslationBatch env0 none none [List.replicate 50000 'a']).2 = none := by
  have hcount : calculateCharCount [List.replicate 50000 'a'] = 50000 := by
    rw [calculateCharCount_singleton, jsTrim_replicate_a, List.length_replicate]
  have h : DAILY_LIMIT_CHARS <
      (loadUsageData env0 none none).charsUsed +
        (calculateCharCount [List.replicate 50000 'a'] : ℚ) := by
    rw [hcount]
    show DAILY_LIMIT_CHARS < (0 : ℚ) + (50000 : ℕ)
    norm_num [DAILY_LIMIT_CHARS]
  exact ⟨h, C4_reject_no_mutation env0 none none [List.replicate 50000 'a'] h⟩

/-- A snapshot dated today is returned by `loadUsageData` as stored. -/
theorem loadUsageData_today (env : Env) (uid : Option String) (d : UsageData)
    (h : d.date = env.today) :
    loadUsageData env uid (some (.good d)) = d := by
  show (if d.date ≠ env.today then createFreshUsageData env uid else d) = d
  rw [if_neg (by simp [h])]

/-- C5: with the limit fixed at 45000, `getUsageStats` reports NORMAL at
`charsUsed = 35999` (neither flag), WARNING at exactly 80% (`36000`:
`isNearLimit` set, `isCritical` not), and CRITICAL at exactly 95%
(`42750`: `isCritical` set). -/
theorem C5_threshold_boundaries :
    ((getUsageStats env0 none
        (some (.good ⟨"2026-10-11", 35999, 0, 0, none⟩))).1.isNearLimit = false ∧
      (getUsageStats env0 none
        (some (.good ⟨"2026-10-11", 35999, 0, 0, none⟩))).1.isCritical = false) ∧
    ((getUsageStats env0 none
        (some (.good ⟨"2026-10-11", 36000, 0, 0, none⟩))).1.isNearLimit = true ∧
      (getUsageStats env0 none
        (some (.good ⟨"2026-10-11", 36000, 0, 0, none⟩))).1.isCritical = false) ∧
    ((getUsageStats env0 none
        (some (.good ⟨"2026-10-11", 42750, 0, 0, none⟩))).1.isNearLimit = true ∧
      (getUsageStats env0 none
        (some (.good ⟨"2026-10-11", 42750, 0, 0, none⟩))).1.isCritical = true) := by
  have h1 := loadUsageData_today env0 none ⟨"2026-10-11", 35999, 0, 0, none⟩ rfl
  have h2 := loadUsageData_today env0 none ⟨"2026-10-11", 36000, 0, 0, none⟩ rfl
  have h3 := loadUsageData_today env0 none ⟨"2026-10-11", 42750, 0, 0, none⟩ rfl
  refine ⟨⟨?_, ?_⟩, ⟨?_, ?_⟩, ?_, ?_⟩ <;>
    simp only [getUsageStats, h1, h2, h3, DAILY_LIMIT_CHARS, WARNING_THRESHOLD,
      CRITICAL_THRESHOLD] <;> norm_num

/-- C6 counterexample: the claim admits the empty batch for *every* usage
value, but with `charsUsed = 45001` (possible, since `recordUsage` does not
check the limit) `canUseChars(0)` is `45001 ≤ 45000 = false`, so even the
empty batch is rejected. -/
theorem C6_counterexample :
    (validateTranslationBatch env0 none
      (some (.good ⟨"2026-10-11", 45001, 1, 0, none⟩)) []).1.canProceed = false := by
  have hload := loadUsageData_today env0 none ⟨"2026-10-11", 45001, 1, 0, none⟩ rfl
  have hcan : (canUseChars env0 none (some (.good ⟨"2026-10-11", 45001, 1, 0, none⟩))
      ((calculateCharCount [] : ℕ) : ℚ)).1 = false := by
    simp only [canUseChars, hload]
    norm_num [calculateCharCount, DAILY_LIMIT_CHARS]
  simp only [validateTranslationBatch]
  rw [if_pos (by simp [hcan])]

/-- C6 (amended): the empty batch is admitted exactly when today's
`charsUsed` is at most the 45000 daily limit (so in particular for every
usage value up to and including the limit); above the limit it is
rejected. -/
theorem C6_empty_batch (env : Env) (uid : Option String) (store : Store) :
    (validateTranslationBatch env uid store []).1.canProceed =
      decide ((loadUsageData env uid store).charsUsed ≤ DAILY_LIMIT_CHARS) := by
  simp only [validateTranslationBatch, canUseChars, getUsageStats]
  by_cases hle : (loadUsageData env uid store).charsUsed ≤ DAILY_LIMIT_CHARS
  · rw [if_neg (by simpa [calculateCharCount] using hle)]
    split
    · simp [hle]
    · split
      · simp [hle]
      · simp [hle]
  · rw [if_pos (by simpa [calculateCharCount] using hle)]
    simp [hle]

/-- C7 counterexample: the claim says a negative capacity and a negative
character count fail fast with an exception; the code performs no
validation on either path. Constructing with `capacity = -1` silently
yields a live bucket with `tokens = -1`, and `recordUsage(-5)` on a ledger
holding `charsUsed = 10` silently writes `charsUsed = 5`. -/
theorem C7_counterexample :
    (TokenBucket.init (-1) (-1) 0).tokens = -1 ∧
    recordUsage env0 none false (some (.good ⟨"2026-10-11", 10, 1, 0, none⟩)) (-5) =
      some (.good ⟨"2026-10-11", 5, 2, 0, none⟩) := by
  refine ⟨rfl, ?_⟩
  rw [recordUsage_eq env0 none _ (-5),
    loadUsageData_today env0 none ⟨"2026-10-11", 10, 1, 0, none⟩ rfl]
  norm_num [env0]

/-- C7 (amended): neither the `TokenBucket` constructor nor `recordUsage`
validates its argument. Construction with `capacity ≤ 0` proceeds silently
and yields a bucket whose token count equals the given capacity (hence is
not positive), and `recordUsage` with a negative count proceeds silently,
persisting a strictly smaller `charsUsed`. -/
theorem C7_no_validation (capacity refillRate t0 c : ℚ) (env : Env)
    (uid : Option String) (store : Store) (hcap : capacity ≤ 0) (hc : c < 0) :
    (TokenBucket.init capacity refillRate t0).tokens = capacity ∧
    (TokenBucket.init capacity refillRate t0).tokens ≤ 0 ∧
    recordUsage env uid false store c =
      some (.good { date := env.today,
                    charsUsed := (loadUsageData env uid store).charsUsed + c,
                    requestCount := (loadUsageData env uid store).requestCount + 1,
                    lastUpdated := env.now, userIdentifier := uid }) ∧
    (loadUsageData env uid store).charsUsed + c <
      (loadUsageData env uid store).charsUsed :=
  ⟨rfl, hcap, recordUsage_eq env uid store c, by linarith⟩

/-- Witness for C7 (amended) at `capacity = -1`, `charCount = -5`. -/
theorem C7_witness :
    ((-1:ℚ) ≤ 0 ∧ (-5:ℚ) < 0) ∧
    ((TokenBucket.init (-1) 1 0).tokens = -1 ∧
    (TokenBucket.init (-1) 1 0).tokens ≤ 0 ∧
    recordUsage env0 none false none (-5) =
      some (.good { date := env0.today,
                    charsUsed := (loadUsageData env0 none none).charsUsed + (-5),
                    requestCount := (loadUsageData env0 none none).requestCount + 1,
                    lastUpdated := env0.now, userIdentifier := none }) ∧
    (loadUsageData env0 none none).charsUsed + (-5) <
      (loadUsageData env0 none none).charsUsed) :=
  ⟨⟨by norm_num, by norm_num⟩,
    C7_no_validation (-1) 1 0 (-5) env0 none none (by norm_num) (by norm_num)⟩

/-- C8: corrupt persisted bytes (a `JSON.parse` failure) are treated as an
absent snapshot: every read operation sees the fresh zero snapshot for
today, leaves the store unchanged, and no parse fault reaches the caller;
and when the store write fails, `recordUsage` swallows the failure and
leaves the store unchanged rather than raising. -/
theorem C8_corrupt_and_failed_write (env : Env) (uid : Option String)
    (c : ℚ) (store : Store) (texts : List (List Char)) :
    loadUsageData env uid (some .corrupt) = createFreshUsageData env uid ∧
    (canUseChars env uid (some .corrupt) c).1 = decide (0 + c ≤ DAILY_LIMIT_CHARS) ∧
    (canUseChars env uid (some .corrupt) c).2 = some .corrupt ∧
    (getUsageStats env uid (some .corrupt)).1.charsUsed = 0 ∧
    (getUsageStats env uid (some .corrupt)).1.requestCount = 0 ∧
    (validateTranslationBatch env uid (some .corrupt) texts).1 =
      (validateTranslationBatch env uid none texts).1 ∧
    recordUsage env uid true store c = store := by
  exact ⟨rfl, rfl, rfl, rfl, rfl,
    validateTranslationBatch_fst_congr env uid (some .corrupt) none texts rfl, rfl⟩

/-- C9: `recordUsage(charCount)` adds exactly `charCount` to today's
`charsUsed`, adds `1` to `requestCount`, and persists the result with no
admission check, so `charsUsed` may exceed the 45000 daily limit — after
which `canUseChars(0)` returns `false`. -/
theorem C9_recordUsage_unconditional (env : Env) (uid : Option String)
    (store : Store) (c : ℚ) (hc : 0 ≤ c) :
    recordUsage env uid false store c =
      some (.good { date := env.today,
                    charsUsed := (loadUsageData env uid store).charsUsed + c,
                    requestCount := (loadUsageData env uid store).requestCount + 1,
                    lastUpdated := env.now, userIdentifier := uid }) ∧
    (DAILY_LIMIT_CHARS < (loadUsageData env uid store).charsUsed + c →
      (canUseChars env uid (recordUsage env uid false store c) 0).1 = false) := by
  refine ⟨recordUsage_eq env uid store c, ?_⟩
  intro hover
  rw [recordUsage_eq]
  have hl : loadUsageData env uid
      (some (.good (UsageData.mk env.today ((loadUsageData env uid store).charsUsed + c)
        ((loadUsageData env uid store).requestCount + 1) env.now uid))) =
      UsageData.mk env.today ((loadUsageData env uid store).charsUsed + c)
        ((loadUsageData env uid store).requestCount + 1) env.now uid := by
    show (if env.today ≠ env.today then _ else _ : UsageData) = _
    rw [if_neg (by simp)]
  show decide ((loadUsageData env uid
      (some (.good (UsageData.mk env.today ((loadUsageData env uid store).charsUsed + c)
        ((loadUsageData env uid store).requestCount + 1) env.now uid)))).charsUsed + 0 ≤
      DAILY_LIMIT_CHARS) = false
  rw [hl]
  simp only [add_zero, decide_eq_false_iff_not, not_le]
  exact hover

/-- Witness for C9: recording `44000` then checking: the ledger at `2000`
used moves to `46000`, above the limit, and `canUseChars(0)` then fails. -/
theorem C9_witness :
    (0:ℚ) ≤ 44000 ∧
    (recordUsage env0 none false
        (some (.good ⟨"2026-10-11", 2000, 3, 0, none⟩)) 44000 =
      some (.good (UsageData.mk env0.today
        ((loadUsageData env0 none
          (some (.good ⟨"2026-10-11", 2000, 3, 0, none⟩))).charsUsed + 44000)
        ((loadUsageData env0 none
          (some (.good ⟨"2026-10-11", 2000, 3, 0, none⟩))).requestCount + 1)
        env0.now none)) ∧
    (DAILY_LIMIT_CHARS < (loadUsageData env0 none
        (some (.good ⟨"2026-10-11", 2000, 3, 0, none⟩))).charsUsed + 44000 →
      (canUseChars env0 none (recordUsage env0 none false
        (some (.good ⟨"2026-10-11", 2000, 3, 0, none⟩)) 44000) 0).1 = false)) :=
  ⟨by norm_num,
    C9_recordUsage_unconditional env0 none
      (some (.good ⟨"2026-10-11", 2000, 3, 0, none⟩)) 44000 (by norm_num)⟩

/-- C10: `getUsageStats` returns `percentUsed` capped at 100 even above the
limit, computes `isNearLimit`/`isCritical` from the uncapped ratio (they
hold exactly when `charsUsed` reaches `36000` resp. `42750`), and
`charsRemaining = max(0, 45000 - charsUsed)` is never negative. -/
theorem C10_stats_shape (env : Env) (uid : Option String) (store : Store) :
    (getUsageStats env uid store).1.percentUsed =
      min 100 ((loadUsageData env uid store).charsUsed / 45000 * 100) ∧
    ((getUsageStats env uid store).1.isNearLimit = true ↔
      36000 ≤ (loadUsageData env uid store).charsUsed) ∧
    ((getUsageStats env uid store).1.isCritical = true ↔
      42750 ≤ (loadUsageData env uid store).charsUsed) ∧
    (getUsageStats env uid store).1.charsRemaining =
      max 0 (45000 - (loadUsageData env uid store).charsUsed) ∧
    0 ≤ (getUsageStats env uid store).1.charsRemaining := by
  refine ⟨rfl, ?_, ?_, rfl, le_max_left _ _⟩
  · show decide ((loadUsageData env uid store).charsUsed / DAILY_LIMIT_CHARS * 100 ≥
        WARNING_THRESHOLD * 100) = true ↔ _
    rw [decide_eq_true_eq]
    unfold DAILY_LIMIT_CHARS WARNING_THRESHOLD
    constructor <;> intro h <;> linarith
  · show decide ((loadUsageData env uid store).charsUsed / DAILY_LIMIT_CHARS * 100 ≥
        CRITICAL_THRESHOLD * 100) = true ↔ _
    rw [decide_eq_true_eq]
    unfold DAILY_LIMIT_CHARS CRITICAL_THRESHOLD
    constructor <;> intro h <;> linarith

end Ctranslator
